import Mathlib

/-!
Shallow embedding of the simulation core of the snake game
(`src/primitives.rs`, `src/entities.rs`, `src/main.rs`):
grid geometry with wrap-around arithmetic, the four-way direction type,
the snake state machine (direction buffering, tick update, growth and
self-collision), food placement, sprite-region selection and the
fixed-timestep scheduler fraction.  Machine integers (`i16`) are modelled
as `Int`; the Rust `%` operator (truncating remainder) is `Int.tmod`.
-/

/-- `GRID_SIZE` from `primitives.rs`: the board is 30 cells wide and
20 cells tall. -/
def GRID_SIZE : Int × Int := (30, 20)

/-- `MILLIS_PER_UPDATE` from `primitives.rs`:
`(1000.0 / UPDATES_PER_SECOND) as u64` with `UPDATES_PER_SECOND = 8.0`,
i.e. 125 milliseconds per simulation tick (the division is exact). -/
def MILLIS_PER_UPDATE : Nat := 1000 / 8

/-- `ModuloSigned::modulo_signed` from `primitives.rs`:
`(self % n + n) % n` where Rust `%` is the truncating remainder. -/
def modulo_signed (a n : Int) : Int :=
  (a.tmod n + n).tmod n

/-- The `Direction` enum from `primitives.rs`. -/
inductive Direction where
  | Left
  | Right
  | Up
  | Down
  deriving DecidableEq, Repr

instance : Fintype Direction :=
  ⟨⟨[Direction.Left, Direction.Right, Direction.Up, Direction.Down], by decide⟩,
    fun d => by cases d <;> decide⟩

/-- `Direction::inverse` from `primitives.rs`. -/
def Direction.inverse : Direction → Direction
  | Direction.Up => Direction.Down
  | Direction.Down => Direction.Up
  | Direction.Left => Direction.Right
  | Direction.Right => Direction.Left

/-- The `From<Direction> for Vector2<f32>` impl from `primitives.rs`
(unit velocity vectors; the values are exact small integers). -/
def Direction.velocity : Direction → Int × Int
  | Direction.Left => (-1, 0)
  | Direction.Up => (0, -1)
  | Direction.Right => (1, 0)
  | Direction.Down => (0, 1)

/-- The `GridPosition` struct from `primitives.rs` (`x`, `y` are `i16`). -/
structure GridPosition where
  x : Int
  y : Int
  deriving DecidableEq, Repr

/-- `GridPosition::new`. -/
def GridPosition.new (x y : Int) : GridPosition :=
  ⟨x, y⟩

/-- `GridPosition::new_from_move` from `primitives.rs`: one step in the
given direction, each axis wrapped with `modulo_signed` by the grid size. -/
def GridPosition.new_from_move (position : GridPosition) (direction : Direction) :
    GridPosition :=
  match direction with
  | Direction.Up => GridPosition.new position.x (modulo_signed (position.y - 1) GRID_SIZE.2)
  | Direction.Down => GridPosition.new position.x (modulo_signed (position.y + 1) GRID_SIZE.2)
  | Direction.Left => GridPosition.new (modulo_signed (position.x - 1) GRID_SIZE.1) position.y
  | Direction.Right => GridPosition.new (modulo_signed (position.x + 1) GRID_SIZE.1) position.y

/-- A position whose coordinates lie on the board,
`[0, width) × [0, height)`. -/
def GridPosition.in_range (p : GridPosition) : Prop :=
  0 ≤ p.x ∧ p.x < GRID_SIZE.1 ∧ 0 ≤ p.y ∧ p.y < GRID_SIZE.2

instance (p : GridPosition) : Decidable p.in_range := by
  unfold GridPosition.in_range
  infer_instance

/-- The spec's own wording of grid movement (§4.1), for refinement against
`GridPosition.new_from_move`: unit displacement by the direction's velocity
vector, each axis wrapped independently by arithmetic (floor) modulo.
Floor modulo with a positive modulus is `Int.emod`. -/
def GridPosition.spec_move (p : GridPosition) (d : Direction) : GridPosition :=
  ⟨(p.x + d.velocity.1) % GRID_SIZE.1, (p.y + d.velocity.2) % GRID_SIZE.2⟩

/-- The `SnakeError` enum from `primitives.rs`. -/
inductive SnakeError where
  | LogicError (msg : String)
  deriving DecidableEq, Repr

/-- The `Ate` enum from `primitives.rs`: what the snake ate this tick. -/
inductive Ate where
  | Itself
  | Food
  deriving DecidableEq, Repr

/-- The `Sprite` enum from `primitives.rs`. -/
inductive Sprite where
  | Head (direction : Direction)
  | Segment (src tgt : Direction)
  | Tail (direction : Direction)
  | Rabit
  | Grass
  deriving DecidableEq, Repr

/-- The `ggez` `Rect` used as a sprite-sheet source region.  All regions in
the source are exact quarters, so the `f32` fields are modelled exactly as
rationals. -/
structure Rect where
  x : Rat
  y : Rat
  w : Rat
  h : Rat
  deriving DecidableEq, Repr

/-- `Rect::new`. -/
def Rect.new (x y w h : Rat) : Rect :=
  ⟨x, y, w, h⟩

/-- The sprite-sheet source region chosen by `From<&Sprite> for DrawParam`
in `primitives.rs`.  The `panic!` on a `Segment` with two equal directions
is the `none` case; every other sprite yields a region. -/
def Sprite.src_rect : Sprite → Option Rect
  | Sprite.Head direction =>
    match direction with
    | Direction.Right => some (Rect.new (1/4) 0 (1/4) (1/4))
    | Direction.Up => some (Rect.new 0 0 (1/4) (1/4))
    | Direction.Left => some (Rect.new (3/4) 0 (1/4) (1/4))
    | Direction.Down => some (Rect.new (1/2) 0 (1/4) (1/4))
  | Sprite.Segment src tgt =>
    match src, tgt with
    | Direction.Left, Direction.Right => some (Rect.new (1/4) (3/4) (1/4) (1/4))
    | Direction.Right, Direction.Left => some (Rect.new (1/4) (3/4) (1/4) (1/4))
    | Direction.Up, Direction.Down => some (Rect.new 0 (3/4) (1/4) (1/4))
    | Direction.Down, Direction.Up => some (Rect.new 0 (3/4) (1/4) (1/4))
    | Direction.Up, Direction.Right => some (Rect.new 0 (1/2) (1/4) (1/4))
    | Direction.Right, Direction.Up => some (Rect.new 0 (1/2) (1/4) (1/4))
    | Direction.Down, Direction.Right => some (Rect.new (1/4) (1/2) (1/4) (1/4))
    | Direction.Right, Direction.Down => some (Rect.new (1/4) (1/2) (1/4) (1/4))
    | Direction.Left, Direction.Down => some (Rect.new (1/2) (1/2) (1/4) (1/4))
    | Direction.Down, Direction.Left => some (Rect.new (1/2) (1/2) (1/4) (1/4))
    | Direction.Left, Direction.Up => some (Rect.new (3/4) (1/2) (1/4) (1/4))
    | Direction.Up, Direction.Left => some (Rect.new (3/4) (1/2) (1/4) (1/4))
    | _, _ => none
  | Sprite.Tail direction =>
    match direction with
    | Direction.Up => some (Rect.new 0 (1/4) (1/4) (1/4))
    | Direction.Right => some (Rect.new (1/4) (1/4) (1/4) (1/4))
    | Direction.Down => some (Rect.new (1/2) (1/4) (1/4) (1/4))
    | Direction.Left => some (Rect.new (3/4) (1/4) (1/4) (1/4))
  | Sprite.Rabit => some (Rect.new (1/2) (3/4) (1/4) (1/4))
  | Sprite.Grass => some (Rect.new (3/4) (3/4) (1/4) (1/4))

/-- The `Segment` struct from `entities.rs`: one snake cell. -/
structure Segment where
  position : GridPosition
  sprite : Sprite
  deriving DecidableEq, Repr

/-- The `Snake` struct from `entities.rs`.  The body `VecDeque` is a list
whose head is the deque front (`push_front` conses, `pop_back` removes the
last element). -/
structure Snake where
  head : Segment
  body : List Segment
  tail : Segment
  direction : Direction
  previous_direction : Direction
  next_direction : Option Direction
  deriving DecidableEq, Repr

/-- The `Food` struct from `entities.rs`. -/
structure Food where
  position : GridPosition
  deriving DecidableEq, Repr

/-- `Snake::new` from `entities.rs`: head at `position`, tail one step to
the left, everything committed to `Right`, nothing buffered. -/
def Snake.new (position : GridPosition) : Snake :=
  { head := ⟨position, Sprite.Head Direction.Right⟩
    body := []
    tail := ⟨GridPosition.new_from_move position Direction.Left, Sprite.Tail Direction.Right⟩
    direction := Direction.Right
    previous_direction := Direction.Right
    next_direction := none }

/-- `Snake::set_direction` from `entities.rs`.  The Rust method mutates
`&mut self` and returns a `SnakeResult<()>`; here it returns the result
together with the (possibly unchanged) state. -/
def Snake.set_direction (s : Snake) (direction : Direction) :
    Except SnakeError Unit × Snake :=
  if s.direction.inverse ≠ direction then
    if s.previous_direction = s.direction then
      (Except.ok (), { s with direction := direction })
    else
      (Except.ok (), { s with next_direction := some direction })
  else
    (Except.error (SnakeError.LogicError
      ("Can only update direction if it is orthogonal to previous direction")), s)

/-- `Snake::segments` from `entities.rs`: the body positions followed by
the head position.  Note the source does NOT include the tail cell. -/
def Snake.segments (s : Snake) : List GridPosition :=
  s.body.map (fun segment => segment.position) ++ [s.head.position]

/-- `Snake::eats_food` from `entities.rs`. -/
def Snake.eats_food (s : Snake) (food : Food) : Bool :=
  s.head.position == food.position

/-- `Snake::eats_self` from `entities.rs`: the head position compared
against the body segments only. -/
def Snake.eats_self (s : Snake) : Bool :=
  s.body.any (fun segment => segment.position == s.head.position)

/-- `Snake::update` from `entities.rs`: advance the head one cell in the
committed direction, push the vacated head cell onto the body, commit any
buffered direction, then check food (short-circuiting) and otherwise pop
the oldest body segment into the tail and check self-collision.  The Rust
`panic!` on a non-`Segment` body sprite is the `Except.error` case. -/
def Snake.update (s : Snake) (food : Food) : Except String (Option Ate × Snake) :=
  let new_head : Segment :=
    ⟨GridPosition.new_from_move s.head.position s.direction, Sprite.Head s.direction⟩
  let pushed : Segment :=
    ⟨s.head.position, Sprite.Segment s.previous_direction.inverse s.direction⟩
  let s1 : Snake :=
    { head := new_head
      body := pushed :: s.body
      tail := s.tail
      direction := match s.next_direction with
        | some next => next
        | none => s.direction
      previous_direction := s.direction
      next_direction := none }
  if s1.eats_food food then
    Except.ok (some Ate.Food, s1)
  else
    let new_tail := (pushed :: s.body).getLast (List.cons_ne_nil _ _)
    match new_tail.sprite with
    | Sprite.Segment _ tgt =>
      let s2 : Snake :=
        { s1 with
          body := (pushed :: s.body).dropLast
          tail := ⟨new_tail.position, Sprite.Tail tgt⟩ }
      if s2.eats_self then
        Except.ok (some Ate.Itself, s2)
      else
        Except.ok (none, s2)
    | _ => Except.error ("The body sprite was not Sprite::Segment.")

/-- Total number of chain cells: the head, the body segments and the
distinguished tail cell. -/
def Snake.chain_length (s : Snake) : Nat :=
  1 + s.body.length + 1

/-- `Game::generate_food_position` from `main.rs`: resample a random grid
cell until it is not in `snake.segments()`.  The random number generator is
modelled as an explicit stream of samples; the function returns the first
sample outside the forbidden list (or `none` when the stream runs out). -/
def generate_food_position (segments : List GridPosition) :
    List GridPosition → Option GridPosition
  | [] => none
  | p :: rest =>
    if segments.contains p then generate_food_position segments rest else some p

/-- The scheduler fragment of `Game::update` in `main.rs`: the value of the
`update_segment` field when `Game::update` returns, as a function of the
`game_over` flag and the milliseconds elapsed since `last_update`.  The
field is set to `elapsed / MILLIS_PER_UPDATE` and reset to `0` only when a
tick fires (`!game_over && update_segment >= 1.0`); it is never clamped. -/
def update_segment_after (game_over : Bool) (elapsed_millis : Nat) : Rat :=
  let seg : Rat := (elapsed_millis : Rat) / (MILLIS_PER_UPDATE : Rat)
  if game_over = false ∧ 1 ≤ seg then 0 else seg

/-- The `debug_assert!` at the top of `PositionedSprite::to_draw_param` in
`primitives.rs`: `0.0 <= update_ratio && update_ratio <= 1.0`. -/
def to_draw_param_assert (r : Rat) : Prop :=
  0 ≤ r ∧ r ≤ 1

-- Helper lemmas about the modulo arithmetic.

theorem Int.tmod_lower_bound (a : Int) {n : Int} (h : 0 < n) : -n ≤ a.tmod n := by
  cases a with
  | ofNat m =>
    have h0 : (0 : Int) ≤ Int.tmod (Int.ofNat m) n :=
      Int.tmod_nonneg n (Int.ofNat_le.mpr (Nat.zero_le m))
    omega
  | negSucc m =>
    cases n with
    | ofNat k =>
      have hk : 0 < k := Int.ofNat_lt.mp h
      have hmod : (m + 1) % k < k := Nat.mod_lt _ hk
      show -(Int.ofNat k) ≤ -(Int.ofNat ((m + 1) % k))
      exact Int.neg_le_neg (Int.ofNat_le.mpr (Nat.le_of_lt hmod))
    | negSucc k => exact absurd h (by exact Int.not_lt.mpr (Int.le_of_lt (Int.negSucc_lt_zero k)))

theorem modulo_signed_eq_emod (a : Int) {n : Int} (h : 0 < n) :
    modulo_signed a n = a % n := by
  unfold modulo_signed
  have hlow : -n ≤ a.tmod n := Int.tmod_lower_bound a h
  have h1 : 0 ≤ a.tmod n + n := by omega
  rw [Int.tmod_eq_emod h1 (Int.le_of_lt h), Int.tmod_def]
  have h2 : a - n * a.tdiv n + n = a + n * (1 - a.tdiv n) := by ring
  rw [h2, Int.add_mul_emod_self_left]

theorem modulo_signed_30 (a : Int) : modulo_signed a 30 = a % 30 :=
  modulo_signed_eq_emod a (by norm_num)

theorem modulo_signed_20 (a : Int) : modulo_signed a 20 = a % 20 :=
  modulo_signed_eq_emod a (by norm_num)

/-- A unit move always changes the position: the moved axis lands in
`[0, n)` shifted by one modulo `n` with `n ∈ {30, 20}`, which can never
reproduce the original coordinate. -/
theorem new_from_move_ne (p : GridPosition) (d : Direction) :
    GridPosition.new_from_move p d ≠ p := by
  cases d <;>
    simp only [GridPosition.new_from_move, GridPosition.new, GRID_SIZE,
      modulo_signed_30, modulo_signed_20] <;>
    intro hcontra <;>
    rw [GridPosition.mk.injEq] at hcontra <;>
    omega

/-- C7 — Direction inverse is an involution with no fixed point:
for every direction `d`, `inverse (inverse d) = d` and `inverse d ≠ d`. -/
theorem direction_inverse_involutive_no_fixed_point :
    ∀ d : Direction, d.inverse.inverse = d ∧ d.inverse ≠ d := by
  decide

/-- C6 — Toroidal wrap with floor modulo: moving from an in-range position
stays in range; on in-range positions the move agrees with the spec's
floor-modulo description (unit displacement, each axis wrapped by
arithmetic modulo); moving Left from `x = 0` gives `x = 29`, moving Right
from `x = 29` gives `x = 0`; and 20 Up moves from `(x, 0)` return to
`(x, 0)`.  Totality is by construction (`GridPosition.new_from_move` is a
total function). -/
theorem grid_wrap_floor_modulo :
    (∀ (p : GridPosition) (d : Direction), p.in_range →
      (p.new_from_move d).in_range) ∧
    (∀ (p : GridPosition) (d : Direction), p.in_range → p.new_from_move d = p.spec_move d) ∧
    GridPosition.new_from_move ⟨0, 0⟩ Direction.Left = ⟨29, 0⟩ ∧
    GridPosition.new_from_move ⟨29, 0⟩ Direction.Right = ⟨0, 0⟩ ∧
    (∀ x : Int,
      Nat.iterate (fun p => GridPosition.new_from_move p Direction.Up) 20 ⟨x, 0⟩ = ⟨x, 0⟩) := by
  refine ⟨?_, ?_, by decide, by decide, fun x => rfl⟩
  · intro p d h
    obtain ⟨h1, h2, h3, h4⟩ := h
    cases d <;>
      · simp only [GridPosition.new_from_move, GridPosition.new, GridPosition.in_range,
          GRID_SIZE, modulo_signed_30, modulo_signed_20] at *
        omega
  · intro p d h
    obtain ⟨h1, h2, h3, h4⟩ := h
    cases d <;>
      · simp only [GridPosition.new_from_move, GridPosition.new, GridPosition.spec_move,
          Direction.velocity, GRID_SIZE, modulo_signed_30, modulo_signed_20] at *
        rw [GridPosition.mk.injEq]
        omega

/-- Witness for C6: the in-range hypotheses discharged at `(3, 4)`. -/
theorem grid_wrap_floor_modulo_witness :
    GridPosition.in_range ⟨3, 4⟩ ∧
    GridPosition.in_range (GridPosition.new_from_move ⟨3, 4⟩ Direction.Up) ∧
    GridPosition.new_from_move ⟨3, 4⟩ Direction.Up = GridPosition.spec_move ⟨3, 4⟩ Direction.Up :=
  ⟨by decide, grid_wrap_floor_modulo.1 ⟨3, 4⟩ Direction.Up (by decide),
    grid_wrap_floor_modulo.2.1 ⟨3, 4⟩ Direction.Up (by decide)⟩

instance (r : Rat) : Decidable (to_draw_param_assert r) := by
  unfold to_draw_param_assert
  infer_instance

/-- Concrete snake whose next move lands exactly on its own tail cell:
head at `(0, 0)` moving Right, tail at `(1, 0)`, no body segments. -/
def snake_head_before_tail : Snake :=
  ⟨⟨⟨0, 0⟩, Sprite.Head Direction.Right⟩, [],
    ⟨⟨1, 0⟩, Sprite.Tail Direction.Right⟩,
    Direction.Right, Direction.Right, none⟩

/-- The state `snake_head_before_tail` reaches after one `update` with the
food far away: the head sits on the old tail cell, the tail has moved to
the vacated head cell. -/
def snake_after_tail_tick : Snake :=
  ⟨⟨⟨1, 0⟩, Sprite.Head Direction.Right⟩, [],
    ⟨⟨0, 0⟩, Sprite.Tail Direction.Right⟩,
    Direction.Right, Direction.Right, none⟩

/-- The state `Snake.new ⟨1, 0⟩` reaches after one `update` with the food
far away. -/
def snake_new_after_tick : Snake :=
  ⟨⟨⟨2, 0⟩, Sprite.Head Direction.Right⟩, [],
    ⟨⟨1, 0⟩, Sprite.Tail Direction.Right⟩,
    Direction.Right, Direction.Right, none⟩

/-- C3 — Reversal rejection with atomicity: requesting the inverse of the
currently committed direction returns a typed `LogicError` and returns the
snake completely unchanged. -/
theorem set_direction_reversal_rejected (s : Snake) :
    s.set_direction s.direction.inverse =
      (Except.error (SnakeError.LogicError
        ("Can only update direction if it is orthogonal to previous direction")), s) := by
  unfold Snake.set_direction
  simp

/-- C8 — Interior-segment sprite lookup: every ordered pair of distinct
directions yields a region and the equal pairs are exactly the panic
(`none`) cases; the lookup is symmetric in the pair; and the two straight
pairs together with the four turning pairs select six pairwise-distinct
tiles (2 straight, 4 corner). -/
theorem segment_sprite_lookup :
    (∀ a b : Direction, (Sprite.src_rect (Sprite.Segment a b)).isSome ↔ a ≠ b) ∧
    (∀ a b : Direction,
      Sprite.src_rect (Sprite.Segment a b) = Sprite.src_rect (Sprite.Segment b a)) ∧
    [Sprite.src_rect (Sprite.Segment Direction.Left Direction.Right),
     Sprite.src_rect (Sprite.Segment Direction.Up Direction.Down),
     Sprite.src_rect (Sprite.Segment Direction.Up Direction.Right),
     Sprite.src_rect (Sprite.Segment Direction.Down Direction.Right),
     Sprite.src_rect (Sprite.Segment Direction.Left Direction.Down),
     Sprite.src_rect (Sprite.Segment Direction.Left Direction.Up)].Nodup := by
  refine ⟨?_, ?_, ?_⟩
  · intro a b
    cases a <;> cases b <;> simp [Sprite.src_rect]
  · intro a b
    cases a <;> cases b <;> rfl
  · simp only [Sprite.src_rect, List.nodup_cons, List.mem_cons, List.mem_singleton,
      List.not_mem_nil, Option.some.injEq, Rect.new, Rect.mk.injEq]
    norm_num

/-- C9 — the scheduler fraction is NOT clamped to `[0, 1]`: once the game
is over no tick ever fires, so `update_segment` keeps growing with elapsed
time; after 250 ms it equals 2 and violates the `debug_assert` of
`PositionedSprite::to_draw_param`. -/
theorem scheduler_fraction_unclamped :
    update_segment_after true 250 = 2 ∧
    ¬ to_draw_param_assert (update_segment_after true 250) := by
  constructor
  · unfold update_segment_after MILLIS_PER_UPDATE
    norm_num
  · unfold to_draw_param_assert update_segment_after MILLIS_PER_UPDATE
    norm_num

/-- C5 — food placement can return the tail cell: `Snake::segments` omits
the tail, so for the freshly created snake (head `(1,0)`, tail `(0,0)`) the
tail cell is not forbidden and a sampler that draws `(0,0)` gets it
accepted, although the snake still occupies that cell. -/
theorem food_placement_tail_overlap :
    generate_food_position (Snake.new ⟨1, 0⟩).segments [⟨0, 0⟩] = some ⟨0, 0⟩ ∧
    (Snake.new ⟨1, 0⟩).tail.position = ⟨0, 0⟩ ∧
    ⟨0, 0⟩ ∉ (Snake.new ⟨1, 0⟩).segments := by
  refine ⟨by decide, by decide, by decide⟩

/-- C2 — Snake length invariant: a tick that returns no outcome or the
ate-itself outcome keeps the total chain-cell count (head + body + tail)
unchanged; a tick that returns the ate-food outcome increases it by
exactly 1. -/
theorem tick_chain_length (s : Snake) (f : Food) (r : Option Ate) (s' : Snake)
    (h : s.update f = Except.ok (r, s')) :
    ((r = none ∨ r = some Ate.Itself) → s'.chain_length = s.chain_length) ∧
    (r = some Ate.Food → s'.chain_length = s.chain_length + 1) := by
  simp only [Snake.update] at h
  split at h
  · rw [Except.ok.injEq, Prod.mk.injEq] at h
    obtain ⟨hr, hs⟩ := h
    subst hr
    subst hs
    constructor
    · rintro (hc | hc) <;> exact absurd hc (by simp)
    · intro _
      simp [Snake.chain_length]
      omega
  · split at h
    · split at h
      · rw [Except.ok.injEq, Prod.mk.injEq] at h
        obtain ⟨hr, hs⟩ := h
        subst hr
        subst hs
        constructor
        · intro _
          simp [Snake.chain_length, List.length_dropLast]
        · intro hc
          exact absurd hc (by simp)
      · rw [Except.ok.injEq, Prod.mk.injEq] at h
        obtain ⟨hr, hs⟩ := h
        subst hr
        subst hs
        constructor
        · intro _
          simp [Snake.chain_length, List.length_dropLast]
        · intro hc
          exact absurd hc (by simp)
    · exact absurd h (by simp)

/-- Witness for C2: the freshly created snake ticks with the food far
away, returns no outcome, and keeps its chain length of 2. -/
theorem tick_chain_length_witness :
    (Snake.new ⟨1, 0⟩).update ⟨⟨15, 10⟩⟩ = Except.ok (none, snake_new_after_tick) ∧
    snake_new_after_tick.chain_length = (Snake.new ⟨1, 0⟩).chain_length :=
  ⟨by rfl,
    (tick_chain_length (Snake.new ⟨1, 0⟩) ⟨⟨15, 10⟩⟩ none snake_new_after_tick
      (by rfl)).1 (Or.inl rfl)⟩

/-- C4 — Outcome exclusivity and precedence: if the new head cell equals
the food position the tick returns the ate-food outcome (the food check
short-circuits before the self-collision check runs), and the ate-itself
outcome can only occur when the new head cell differs from the food
position.  A tick returns a single `Option Ate` value, so the outcomes are
mutually exclusive by construction. -/
theorem tick_outcome_precedence :
    (∀ (s : Snake) (f : Food),
      GridPosition.new_from_move s.head.position s.direction = f.position →
      ∃ s', s.update f = Except.ok (some Ate.Food, s')) ∧
    (∀ (s : Snake) (f : Food) (s' : Snake),
      s.update f = Except.ok (some Ate.Itself, s') →
      GridPosition.new_from_move s.head.position s.direction ≠ f.position) := by
  constructor
  · intro s f hfood
    simp only [Snake.update, Snake.eats_food]
    rw [if_pos (by simp [hfood])]
    exact ⟨_, rfl⟩
  · intro s f s' h
    simp only [Snake.update] at h
    split at h
    · rw [Except.ok.injEq, Prod.mk.injEq] at h
      exact absurd h.1 (by simp)
    · rename_i hnotfood
      simp only [Snake.eats_food, beq_iff_eq] at hnotfood
      exact hnotfood

/-- Witness for C4: the freshly created snake with the food directly in
its path eats it on the next tick. -/
theorem tick_outcome_precedence_witness :
    GridPosition.new_from_move (Snake.new ⟨1, 0⟩).head.position (Snake.new ⟨1, 0⟩).direction =
      (Food.mk ⟨2, 0⟩).position ∧
    ∃ s', (Snake.new ⟨1, 0⟩).update ⟨⟨2, 0⟩⟩ = Except.ok (some Ate.Food, s') :=
  ⟨by decide, tick_outcome_precedence.1 (Snake.new ⟨1, 0⟩) ⟨⟨2, 0⟩⟩ (by decide)⟩

/-- C10 — the tail cell is excluded from the self-collision check:
`eats_self` compares the new head only against body segments, so a tick
whose new head lands exactly on the tail cell, on no body segment and not
on the food, reports no outcome at all rather than ate-itself. -/
theorem tick_tail_not_collision (s : Snake) (f : Food) (r : Option Ate) (s' : Snake)
    (h : s.update f = Except.ok (r, s'))
    (htail : GridPosition.new_from_move s.head.position s.direction = s.tail.position)
    (hbody : ∀ seg ∈ s.body,
      seg.position ≠ GridPosition.new_from_move s.head.position s.direction)
    (hfood : GridPosition.new_from_move s.head.position s.direction ≠ f.position) :
    r = none := by
  simp only [Snake.update] at h
  split at h
  · rename_i hisfood
    simp only [Snake.eats_food, beq_iff_eq] at hisfood
    exact absurd hisfood hfood
  · split at h
    · split at h
      · rename_i hself
        simp only [Snake.eats_self, List.any_eq_true, beq_iff_eq] at hself
        obtain ⟨seg, hmem, hpos⟩ := hself
        rcases List.mem_cons.mp (List.mem_of_mem_dropLast hmem) with hseg | hseg
        · subst hseg
          exact absurd hpos.symm (new_from_move_ne s.head.position s.direction)
        · exact absurd hpos (hbody seg hseg)
      · rw [Except.ok.injEq, Prod.mk.injEq] at h
        exact h.1.symm
    · exact absurd h (by simp)

/-- Witness for C10: a length-2 snake whose head steps onto its own tail
cell; the tick reports no outcome. -/
theorem tick_tail_not_collision_witness :
    snake_head_before_tail.update ⟨⟨5, 5⟩⟩ = Except.ok (none, snake_after_tail_tick) ∧
    GridPosition.new_from_move snake_head_before_tail.head.position
      snake_head_before_tail.direction = snake_head_before_tail.tail.position ∧
    (none : Option Ate) = none :=
  ⟨by rfl, by decide,
    tick_tail_not_collision snake_head_before_tail ⟨⟨5, 5⟩⟩ none snake_after_tail_tick
      (by rfl) (by decide) (by simp [snake_head_before_tail]) (by decide)⟩

/-- C1 (as stated) is false: starting from a freshly ticked snake
committed to Right with nothing pending, `set_direction Up` is applied
IMMEDIATELY (the committed direction becomes Up, nothing is buffered), so
the following `set_direction Down` is validated against the now-committed
Up — its inverse — and fails with a `LogicError`; the next tick then
commits Up, not Down. -/
theorem direction_buffering_counterexample :
    ((Snake.new ⟨1, 0⟩).set_direction Direction.Up).2.set_direction Direction.Down =
      (Except.error (SnakeError.LogicError
        ("Can only update direction if it is orthogonal to previous direction")),
       ((Snake.new ⟨1, 0⟩).set_direction Direction.Up).2) ∧
    (((Snake.new ⟨1, 0⟩).set_direction Direction.Up).2.update ⟨⟨15, 10⟩⟩).toOption.map
      (fun p => p.2.direction) = some Direction.Up ∧
    Direction.Up ≠ Direction.Down := by
  refine ⟨by rfl, by rfl, by decide⟩

/-- C1 amended — for a snake committed to Right that has just completed a
tick with no change pending, `set_direction Up` succeeds and is applied
immediately (Up becomes the committed direction, the buffer stays empty);
the subsequent `set_direction Down` is rejected with a `LogicError`
because Down is the inverse of the now-committed Up, and leaves the state
unchanged; after the next tick the committed direction is Up, not Down. -/
theorem direction_buffering_amended (s : Snake) (f : Food)
    (h1 : s.direction = Direction.Right)
    (h2 : s.previous_direction = Direction.Right)
    (h3 : s.next_direction = none) :
    (s.set_direction Direction.Up).1 = Except.ok () ∧
    (s.set_direction Direction.Up).2.direction = Direction.Up ∧
    (s.set_direction Direction.Up).2.next_direction = none ∧
    (s.set_direction Direction.Up).2.set_direction Direction.Down =
      (Except.error (SnakeError.LogicError
        ("Can only update direction if it is orthogonal to previous direction")),
       (s.set_direction Direction.Up).2) ∧
    (∀ (r : Option Ate) (s' : Snake),
      (s.set_direction Direction.Up).2.update f = Except.ok (r, s') →
      s'.direction = Direction.Up) := by
  have hset : s.set_direction Direction.Up =
      (Except.ok (), { s with direction := Direction.Up }) := by
    unfold Snake.set_direction
    rw [h1, h2]
    rw [if_pos (by decide), if_pos rfl]
  rw [hset]
  refine ⟨rfl, rfl, by simp [h3], ?_, ?_⟩
  · unfold Snake.set_direction
    rw [if_neg (by simp [Direction.inverse])]
  · intro r s' h
    simp only [Snake.update, h3] at h
    split at h
    · rw [Except.ok.injEq, Prod.mk.injEq] at h
      rw [← h.2]
    · split at h
      · split at h <;>
          · rw [Except.ok.injEq, Prod.mk.injEq] at h
            rw [← h.2]
      · exact absurd h (by simp)

/-- Witness for C1 (amended): the hypotheses discharged on the freshly
created snake. -/
theorem direction_buffering_amended_witness :
    (Snake.new ⟨1, 0⟩).direction = Direction.Right ∧
    (Snake.new ⟨1, 0⟩).previous_direction = Direction.Right ∧
    (Snake.new ⟨1, 0⟩).next_direction = none ∧
    ((Snake.new ⟨1, 0⟩).set_direction Direction.Up).1 = Except.ok () :=
  ⟨by decide, by decide, by decide,
    (direction_buffering_amended (Snake.new ⟨1, 0⟩) ⟨⟨15, 10⟩⟩
      (by decide) (by decide) (by decide)).1⟩
